import Mathlib

/-!
# Verification of the ATEM wire-format codec

Shallow embedding of the encoder/decoder helpers of `AtemCommands.py` and
`AtemStatuses.py`.  Byte strings are modelled as `List Nat` (each element a
byte value), Python `int` as `ℤ`, Python `float` as `ℚ`/`ℝ` depending on
whether the computation is exact, and raised exceptions as the `Except`
monad.  Each `struct.pack` format element is modelled by one helper that
performs the same range check `struct.error` performs.
-/

/-- Python exceptions that the modelled code can raise. -/
inductive PyErr where
  | structError
  | valueError (msg : String)
  | typeError
  | keyError
  | indexError
  | attributeError
deriving DecidableEq

/-- A byte string: a list of byte values. -/
abbrev Bytes := List Nat

/-- `str.encode()` for the ASCII tag literals appearing in the source:
for ASCII text the UTF-8 bytes are the code points. -/
def asciiBytes (s : String) : Bytes := s.data.map Char.toNat

/-- Python `int(q)`: truncation towards zero. -/
def pyInt (q : ℚ) : ℤ := if 0 ≤ q then ⌊q⌋ else ⌈q⌉

/-- `struct.pack` element `B` (unsigned 8-bit, range-checked). -/
def packB (n : ℤ) : Except PyErr Bytes :=
  if 0 ≤ n ∧ n ≤ 255 then .ok [n.toNat] else .error .structError

/-- `struct.pack` element `H`, big-endian (unsigned 16-bit, range-checked). -/
def packH (n : ℤ) : Except PyErr Bytes :=
  if 0 ≤ n ∧ n ≤ 65535 then .ok [n.toNat / 256, n.toNat % 256]
  else .error .structError

/-- `struct.pack` element `I`, big-endian (unsigned 32-bit, range-checked). -/
def packI (n : ℤ) : Except PyErr Bytes :=
  if 0 ≤ n ∧ n ≤ 4294967295 then
    .ok [n.toNat / 16777216, n.toNat / 65536 % 256, n.toNat / 256 % 256,
         n.toNat % 256]
  else .error .structError

/-- Big-endian two's-complement bytes of width `w` for an already
range-checked signed value. -/
def beBytes (w : Nat) (n : Nat) : Bytes :=
  (List.range w).map (fun i => n / 256 ^ (w - 1 - i) % 256)

/-- `struct.pack` signed element of byte width `w`
(`b`/`h`/`i`/`q` for `w` = 1/2/4/8), big-endian, range-checked. -/
def packSigned (w : Nat) (n : ℤ) : Except PyErr Bytes :=
  if -(2 ^ (8 * w - 1)) ≤ n ∧ n < 2 ^ (8 * w - 1) then
    .ok (beBytes w ((n % (2 ^ (8 * w) : ℤ)).toNat))
  else .error .structError

/-- `struct.pack` element `?`: one byte, 1 for truthy, 0 for falsy. -/
def packBool (b : Bool) : Bytes := [if b then 1 else 0]

/-- `struct.pack` pad element `x` repeated `k` times: zero bytes. -/
def packPad (k : Nat) : Bytes := List.replicate k 0

/-- `struct.pack` element `Ns`: the argument bytes truncated or
zero-padded to exactly `len` bytes (never an error). -/
def packNs (len : Nat) (b : Bytes) : Bytes :=
  b.take len ++ List.replicate (len - b.length) 0

/-- `Command._make_command(self, name, data)`:
`struct.pack('>H 2x 4s', len(data) + 8, name.encode()) + data`.
`H` range-checks the length word; `2x` emits two zero bytes; `4s`
truncates or zero-pads the tag bytes to width 4. -/
def Command._make_command (name : Bytes) (data : Bytes) : Except PyErr Bytes := do
  let len ← packH ((data.length : ℤ) + 8)
  pure (len ++ packPad 2 ++ packNs 4 name ++ data)

/-- `FieldBase.make_packet(self)`:
`struct.pack('!H2x 4s', len(self.raw) + 8, self.CODE.encode()) + self.raw`
(`!` is the same big-endian byte order as `>`), modelled as a function of
the class `CODE` bytes and the stored `raw` payload. -/
def FieldBase.make_packet (code : Bytes) (raw : Bytes) : Except PyErr Bytes := do
  let len ← packH ((raw.length : ℤ) + 8)
  pure (len ++ packPad 2 ++ packNs 4 code ++ raw)

/-- Claim C1: for every 4-byte tag and every payload (that fits the 16-bit
length word), the encoded frame is exactly big-endian u16 of
`payload length + 8`, two zero bytes, the 4 tag bytes, then the payload;
the two length bytes decode (big-endian) to exactly `payload length + 8`.
This holds for `Command._make_command` and for `FieldBase.make_packet`. -/
theorem atem_frame_envelope (tag payload : Bytes) (h4 : tag.length = 4)
    (hfit : payload.length + 8 ≤ 65535) :
    Command._make_command tag payload =
      .ok ([(payload.length + 8) / 256, (payload.length + 8) % 256, 0, 0]
            ++ tag ++ payload) ∧
    FieldBase.make_packet tag payload =
      .ok ([(payload.length + 8) / 256, (payload.length + 8) % 256, 0, 0]
            ++ tag ++ payload) ∧
    256 * ((payload.length + 8) / 256) + (payload.length + 8) % 256 =
      payload.length + 8 := by
  have hc : (0 : ℤ) ≤ (payload.length : ℤ) + 8 ∧ (payload.length : ℤ) + 8 ≤ 65535 := by
    constructor <;> omega
  have htn : ((payload.length : ℤ) + 8).toNat = payload.length + 8 := by omega
  have htake : tag.take 4 = tag := List.take_of_length_le (by omega)
  have hrep : List.replicate (4 - tag.length) (0 : Nat) = [] := by
    simp [h4]
  refine ⟨?_, ?_, Nat.div_add_mod _ 256⟩ <;>
    simp [Command._make_command, FieldBase.make_packet, packH, packNs, packPad,
      hc, htn, htake, hrep, h4, Nat.sub_self]

/-- Concrete check of `atem_frame_envelope` on the `DCut` tag and a
4-byte payload. -/
theorem atem_frame_envelope_check :
    Command._make_command (asciiBytes "DCut") [1, 0, 0, 0] =
      .ok [0, 12, 0, 0, 68, 67, 117, 116, 1, 0, 0, 0] := by
  have h := atem_frame_envelope (asciiBytes "DCut") [1, 0, 0, 0]
    (by decide) (by norm_num)
  rw [h.1]
  rfl

/-- Claim C9 (amended): `_make_command` never fails on a tag whose encoded
length differs from 4; the `4s` pack element truncates a longer tag to its
first 4 bytes and zero-pads a shorter one, and a frame is returned whenever
the length word fits 16 bits. -/
theorem make_command_pads_or_truncates_tag (tag payload : Bytes)
    (hfit : payload.length + 8 ≤ 65535) :
    Command._make_command tag payload =
      .ok ([(payload.length + 8) / 256, (payload.length + 8) % 256, 0, 0]
            ++ (tag.take 4 ++ List.replicate (4 - tag.length) 0) ++ payload) := by
  have hc : (0 : ℤ) ≤ (payload.length : ℤ) + 8 ∧ (payload.length : ℤ) + 8 ≤ 65535 := by
    constructor <;> omega
  have htn : ((payload.length : ℤ) + 8).toNat = payload.length + 8 := by omega
  simp [Command._make_command, packH, packNs, packPad, hc, htn]

/-- Concrete check of `make_command_pads_or_truncates_tag` on a 3-byte tag. -/
theorem make_command_pads_or_truncates_tag_check :
    Command._make_command [65, 66, 67] [5] = .ok [0, 9, 0, 0, 65, 66, 67, 0, 5] := by
  have h := make_command_pads_or_truncates_tag [65, 66, 67] [5] (by norm_num)
  rw [h]
  rfl

/-- Claim C9 is false as stated: a tag of length 3 does not make
`_make_command` fail; it returns a frame with the tag zero-padded. -/
theorem make_command_short_tag_returns_frame :
    ([65, 66, 67] : Bytes).length ≠ 4 ∧
    Command._make_command [65, 66, 67] [] = .ok [0, 8, 0, 0, 65, 66, 67, 0] := by
  exact ⟨by decide, by rfl⟩

/-- `MediaplayerSelectCommand` (`MPSS`) after a successful `__init__`:
the stored attributes, including the derived `source_type`. -/
structure MediaplayerSelectCommand where
  index : ℤ
  still : Option ℤ
  clip : Option ℤ
  source_type : ℤ
deriving DecidableEq

/-- `MediaplayerSelectCommand.__init__(self, index, still=None, clip=None)`:
stores the arguments, raises `ValueError` when both or neither of
`still`/`clip` are given, then derives `source_type` (1 = still, 2 = clip). -/
def MediaplayerSelectCommand.init (index : ℤ) (still clip : Option ℤ) :
    Except PyErr MediaplayerSelectCommand :=
  if still ≠ none ∧ clip ≠ none then
    .error (.valueError "Can only set still= or clip=, not both")
  else if still = none ∧ clip = none then
    .error (.valueError "Either still or clip is required")
  else
    .ok { index := index, still := still, clip := clip,
          source_type := if clip = none then 1 else 2 }

/-- Claim C3: constructing `MediaplayerSelectCommand` with both `still` and
`clip` raises, with neither raises, and with exactly one of the two
succeeds.  (The source raises `ValueError`, the concrete exception the
spec's taxonomy calls ConfigurationError.) -/
theorem mediaplayer_select_validation (index : ℤ) :
    (∀ s c : ℤ, MediaplayerSelectCommand.init index (some s) (some c) =
      .error (.valueError "Can only set still= or clip=, not both")) ∧
    (MediaplayerSelectCommand.init index none none =
      .error (.valueError "Either still or clip is required")) ∧
    (∀ s : ℤ, MediaplayerSelectCommand.init index (some s) none =
      .ok { index := index, still := some s, clip := none, source_type := 1 }) ∧
    (∀ c : ℤ, MediaplayerSelectCommand.init index none (some c) =
      .ok { index := index, still := none, clip := some c, source_type := 2 }) := by
  refine ⟨fun s c => ?_, ?_, fun s => ?_, fun c => ?_⟩ <;>
    simp [MediaplayerSelectCommand.init]

/-- `DkeyGainCommand` (`CDsG`): index plus four optional parameters. -/
structure DkeyGainCommand where
  index : ℤ
  premultiplied : Option Bool
  clip : Option ℤ
  gain : Option ℤ
  invert : Option Bool
deriving DecidableEq

/-- The mask word computed at the top of `DkeyGainCommand.get_command`:
`mask = 0`, then `|= 0x01/0x02/0x04/0x08` for each supplied parameter. -/
def DkeyGainCommand.mask (c : DkeyGainCommand) : Nat :=
  (((0 ||| (if c.premultiplied.isSome then 0x01 else 0))
      ||| (if c.clip.isSome then 0x02 else 0))
      ||| (if c.gain.isSome then 0x04 else 0))
      ||| (if c.invert.isSome then 0x08 else 0)

/-- The `data` bytes of `DkeyGainCommand.get_command`:
defaults substituted for absent parameters, then
`struct.pack('>BB ?x H H ?3x', mask, index, premultiplied, clip, gain, invert)`. -/
def DkeyGainCommand.pack_data (c : DkeyGainCommand) : Except PyErr Bytes := do
  let premultiplied := match c.premultiplied with | none => false | some b => b
  let invert := match c.invert with | none => false | some b => b
  let clip : ℤ := match c.clip with | none => 0 | some v => v
  let gain : ℤ := match c.gain with | none => 0 | some v => v
  let b0 ← packB (c.mask : ℤ)
  let b1 ← packB c.index
  let bclip ← packH clip
  let bgain ← packH gain
  pure (b0 ++ b1 ++ packBool premultiplied ++ packPad 1 ++ bclip ++ bgain
        ++ packBool invert ++ packPad 3)

/-- `DkeyGainCommand.get_command(self)`: the packed data wrapped in the
`CDsG` envelope. -/
def DkeyGainCommand.get_command (c : DkeyGainCommand) : Except PyErr Bytes := do
  Command._make_command (asciiBytes "CDsG") (← c.pack_data)

/-- `ColorGeneratorCommand` (`CClV`): index plus three optional
parameters; hue/saturation/luma are Python numbers (ints or floats). -/
structure ColorGeneratorCommand where
  index : ℤ
  hue : Option ℚ
  saturation : Option ℚ
  luma : Option ℚ
deriving DecidableEq

/-- The mask word computed in `ColorGeneratorCommand.get_command`. -/
def ColorGeneratorCommand.mask (c : ColorGeneratorCommand) : Nat :=
  ((0 ||| (if c.hue.isSome then 0x01 else 0))
     ||| (if c.saturation.isSome then 0x02 else 0))
     ||| (if c.luma.isSome then 0x04 else 0)

/-- The `data` bytes of `ColorGeneratorCommand.get_command`:
`hue = 0 if None else int(hue * 10)` (saturation/luma scaled by 1000),
then `struct.pack('>BB 3H', mask, index, hue, saturation, luma)`. -/
def ColorGeneratorCommand.pack_data (c : ColorGeneratorCommand) :
    Except PyErr Bytes := do
  let hue : ℤ := match c.hue with | none => 0 | some h => pyInt (h * 10)
  let saturation : ℤ := match c.saturation with | none => 0 | some s => pyInt (s * 1000)
  let luma : ℤ := match c.luma with | none => 0 | some l => pyInt (l * 1000)
  let b0 ← packB (c.mask : ℤ)
  let b1 ← packB c.index
  let bh ← packH hue
  let bs ← packH saturation
  let bl ← packH luma
  pure (b0 ++ b1 ++ bh ++ bs ++ bl)

/-- `ColorGeneratorCommand.get_command(self)`: the packed data wrapped in
the `CClV` envelope. -/
def ColorGeneratorCommand.get_command (c : ColorGeneratorCommand) :
    Except PyErr Bytes := do
  Command._make_command (asciiBytes "CClV") (← c.pack_data)

/-- Bits at or above the mask width are never set:
`m < 2 ^ w → w ≤ k → m.testBit k = false`. -/
theorem testBit_false_of_lt_pow {m w k : Nat} (hm : m < 2 ^ w) (hk : w ≤ k) :
    m.testBit k = false :=
  Nat.testBit_eq_false_of_lt (lt_of_lt_of_le hm (Nat.pow_le_pow_right (by norm_num) hk))

/-- Claim C2: for the mask-based update encoders `DkeyGainCommand` and
`ColorGeneratorCommand`, bit `k` of the mask word is set iff the `k`-th
optional parameter was supplied (and no higher bit is ever set), and
encoding with only the `k`-th parameter supplied packs every byte of every
absent parameter at its type-correct default (0 / false). -/
theorem partial_update_mask_bits :
    (∀ c : DkeyGainCommand,
      c.mask.testBit 0 = c.premultiplied.isSome ∧
      c.mask.testBit 1 = c.clip.isSome ∧
      c.mask.testBit 2 = c.gain.isSome ∧
      c.mask.testBit 3 = c.invert.isSome ∧
      ∀ k, 4 ≤ k → c.mask.testBit k = false) ∧
    (∀ c : ColorGeneratorCommand,
      c.mask.testBit 0 = c.hue.isSome ∧
      c.mask.testBit 1 = c.saturation.isSome ∧
      c.mask.testBit 2 = c.luma.isSome ∧
      ∀ k, 3 ≤ k → c.mask.testBit k = false) ∧
    (∀ idx : ℤ, 0 ≤ idx → idx ≤ 255 →
      (∀ b : Bool, DkeyGainCommand.pack_data ⟨idx, some b, none, none, none⟩ =
        .ok [1, idx.toNat, if b then 1 else 0, 0, 0, 0, 0, 0, 0, 0, 0, 0]) ∧
      (∀ v : ℤ, 0 ≤ v → v ≤ 65535 →
        DkeyGainCommand.pack_data ⟨idx, none, some v, none, none⟩ =
          .ok [2, idx.toNat, 0, 0, v.toNat / 256, v.toNat % 256, 0, 0, 0, 0, 0, 0]) ∧
      (∀ v : ℤ, 0 ≤ v → v ≤ 65535 →
        DkeyGainCommand.pack_data ⟨idx, none, none, some v, none⟩ =
          .ok [4, idx.toNat, 0, 0, 0, 0, v.toNat / 256, v.toNat % 256, 0, 0, 0, 0]) ∧
      (∀ b : Bool, DkeyGainCommand.pack_data ⟨idx, none, none, none, some b⟩ =
        .ok [8, idx.toNat, 0, 0, 0, 0, 0, 0, if b then 1 else 0, 0, 0, 0])) ∧
    (∀ idx : ℤ, 0 ≤ idx → idx ≤ 255 →
      (∀ h : ℚ, 0 ≤ pyInt (h * 10) → pyInt (h * 10) ≤ 65535 →
        ColorGeneratorCommand.pack_data ⟨idx, some h, none, none⟩ =
          .ok [1, idx.toNat, (pyInt (h * 10)).toNat / 256,
               (pyInt (h * 10)).toNat % 256, 0, 0, 0, 0]) ∧
      (∀ s : ℚ, 0 ≤ pyInt (s * 1000) → pyInt (s * 1000) ≤ 65535 →
        ColorGeneratorCommand.pack_data ⟨idx, none, some s, none⟩ =
          .ok [2, idx.toNat, 0, 0, (pyInt (s * 1000)).toNat / 256,
               (pyInt (s * 1000)).toNat % 256, 0, 0]) ∧
      (∀ l : ℚ, 0 ≤ pyInt (l * 1000) → pyInt (l * 1000) ≤ 65535 →
        ColorGeneratorCommand.pack_data ⟨idx, none, none, some l⟩ =
          .ok [4, idx.toNat, 0, 0, 0, 0, (pyInt (l * 1000)).toNat / 256,
               (pyInt (l * 1000)).toNat % 256])) := by
  refine ⟨fun c => ?_, fun c => ?_, fun idx h0 h1 => ?_, fun idx h0 h1 => ?_⟩
  · obtain ⟨idx, p, cl, g, i⟩ := c
    have hlt : DkeyGainCommand.mask ⟨idx, p, cl, g, i⟩ < 2 ^ 4 := by
      cases p <;> cases cl <;> cases g <;> cases i <;> simp [DkeyGainCommand.mask]
    refine ⟨?_, ?_, ?_, ?_, fun k hk => testBit_false_of_lt_pow hlt hk⟩ <;>
      cases p <;> cases cl <;> cases g <;> cases i <;> simp [DkeyGainCommand.mask] <;>
      decide
  · obtain ⟨idx, hu, sa, lu⟩ := c
    have hlt : ColorGeneratorCommand.mask ⟨idx, hu, sa, lu⟩ < 2 ^ 3 := by
      cases hu <;> cases sa <;> cases lu <;> simp [ColorGeneratorCommand.mask]
    refine ⟨?_, ?_, ?_, fun k hk => testBit_false_of_lt_pow hlt hk⟩ <;>
      cases hu <;> cases sa <;> cases lu <;> simp [ColorGeneratorCommand.mask] <;>
      decide
  · refine ⟨fun b => ?_, fun v hv0 hv1 => ?_, fun v hv0 hv1 => ?_, fun b => ?_⟩
    · simp [DkeyGainCommand.pack_data, DkeyGainCommand.mask, packB, packH,
        packBool, packPad, h0, h1]
      rfl
    · simp [DkeyGainCommand.pack_data, DkeyGainCommand.mask, packB, packH,
        packBool, packPad, h0, h1, hv0, hv1]
      rfl
    · simp [DkeyGainCommand.pack_data, DkeyGainCommand.mask, packB, packH,
        packBool, packPad, h0, h1, hv0, hv1]
      rfl
    · simp [DkeyGainCommand.pack_data, DkeyGainCommand.mask, packB, packH,
        packBool, packPad, h0, h1]
      rfl
  · refine ⟨fun h hh0 hh1 => ?_, fun s hs0 hs1 => ?_, fun l hl0 hl1 => ?_⟩
    · simp [ColorGeneratorCommand.pack_data, ColorGeneratorCommand.mask, packB,
        packH, packPad, h0, h1, hh0, hh1]
      rfl
    · simp [ColorGeneratorCommand.pack_data, ColorGeneratorCommand.mask, packB,
        packH, packPad, h0, h1, hs0, hs1]
      rfl
    · simp [ColorGeneratorCommand.pack_data, ColorGeneratorCommand.mask, packB,
        packH, packPad, h0, h1, hl0, hl1]
      rfl

/-- Concrete check of `partial_update_mask_bits`: clip-only `CDsG` data and
hue-only `CClV` data. -/
theorem partial_update_mask_bits_check :
    DkeyGainCommand.pack_data ⟨3, none, some 500, none, none⟩ =
      .ok [2, 3, 0, 0, 1, 244, 0, 0, 0, 0, 0, 0] ∧
    ColorGeneratorCommand.pack_data ⟨2, some 100, none, none⟩ =
      .ok [1, 2, 3, 232, 0, 0, 0, 0] := by
  constructor
  · have h := (partial_update_mask_bits.2.2.1 3 (by norm_num) (by norm_num)).2.1
      500 (by norm_num) (by norm_num)
    rw [h]
    rfl
  · have hv : pyInt (100 * 10) = 1000 := by norm_num [pyInt]
    have h := (partial_update_mask_bits.2.2.2 2 (by norm_num) (by norm_num)).1
      100 (by rw [hv]; norm_num) (by rw [hv]; norm_num)
    rw [h, hv]
    rfl

/-- `AudioMeterLevelsField._level(self, value)` (`AMLv`): raw unsigned
sample to dB.  `math.log10`/`*` on IEEE doubles are modelled over `ℝ`;
the guarded branch returns the −60 floor for raw 0. -/
noncomputable def AudioMeterLevelsField.level (value : Nat) : ℝ :=
  if value = 0 then -60
  else Real.logb 10 ((value : ℝ) / (128 * 65536)) * 20

/-- Claim C5: the `AMLv` decode maps raw `128 * 65536` to exactly 0 dB,
raw 0 to exactly −60 dB (never −∞), and every other raw value `v` to
`20 * log10 (v / (128 * 65536))`. -/
theorem audio_meter_level_curve :
    AudioMeterLevelsField.level (128 * 65536) = 0 ∧
    AudioMeterLevelsField.level 0 = -60 ∧
    ∀ v : Nat, v ≠ 0 →
      AudioMeterLevelsField.level v = 20 * Real.logb 10 ((v : ℝ) / (128 * 65536)) := by
  refine ⟨?_, ?_, fun v hv => ?_⟩
  · rw [AudioMeterLevelsField.level, if_neg (by norm_num)]
    have h1 : ((128 * 65536 : Nat) : ℝ) / (128 * 65536) = 1 := by norm_num
    rw [h1, Real.logb_one, zero_mul]
  · rw [AudioMeterLevelsField.level, if_pos rfl]
  · rw [AudioMeterLevelsField.level, if_neg hv, mul_comm]

/-- Concrete check of `audio_meter_level_curve` at raw value 2. -/
theorem audio_meter_level_curve_check :
    AudioMeterLevelsField.level 2 = 20 * Real.logb 10 ((2 : ℝ) / (128 * 65536)) := by
  have h := audio_meter_level_curve.2.2 2 (by norm_num)
  rw [h]
  norm_num

/-- The `COEFF` class attribute of `FairlightMeterLevelsField`:
`10 ** (40 / 20)` (a real power in the model). -/
noncomputable def FairlightMeterLevelsField.COEFF : ℝ := (10 : ℝ) ^ ((40 : ℝ) / 20)

/-- `FairlightMeterLevelsField._level(self, value)` (`FMLv`): raw signed
value to dB.  `value += 10000; value /= 10000` rebinds the float `x`;
`math.exp`/`math.log` are modelled over `ℝ`. -/
noncomputable def FairlightMeterLevelsField.level (value : ℤ) : ℝ :=
  if value = 0 then 0
  else
    let x : ℝ := ((value : ℝ) + 10000) / 10000
    if x = 0 then -60
    else (Real.exp (Real.log (FairlightMeterLevelsField.COEFF + 1) * x) - 1)
           / FairlightMeterLevelsField.COEFF * 60 - 60

/-- The `COEFF` class attribute of `FairlightMasterLevelsField`, same
value as the meter one. -/
noncomputable def FairlightMasterLevelsField.COEFF : ℝ := (10 : ℝ) ^ ((40 : ℝ) / 20)

/-- `FairlightMasterLevelsField._level(self, value)` (`FDLv`): identical
body to the `FMLv` one. -/
noncomputable def FairlightMasterLevelsField.level (value : ℤ) : ℝ :=
  if value = 0 then 0
  else
    let x : ℝ := ((value : ℝ) + 10000) / 10000
    if x = 0 then -60
    else (Real.exp (Real.log (FairlightMasterLevelsField.COEFF + 1) * x) - 1)
           / FairlightMasterLevelsField.COEFF * 60 - 60

/-- Claim C6: both Fairlight level decodes map raw 0 to exactly 0 dB (not
−60), raw −10000 to exactly −60 dB, and every raw `v ∈ [−10000, 0)` to
`((C + 1) ^ x − 1) / C * 60 − 60` where `x = (v + 10000) / 10000` and
`C = 10 ^ (40 / 20)`. -/
theorem fairlight_level_curve :
    (FairlightMeterLevelsField.level 0 = 0 ∧ FairlightMasterLevelsField.level 0 = 0) ∧
    (FairlightMeterLevelsField.level (-10000) = -60 ∧
      FairlightMasterLevelsField.level (-10000) = -60) ∧
    ∀ v : ℤ, -10000 ≤ v → v < 0 →
      FairlightMeterLevelsField.level v =
        (((10 : ℝ) ^ ((40 : ℝ) / 20) + 1) ^ (((v : ℝ) + 10000) / 10000) - 1)
          / ((10 : ℝ) ^ ((40 : ℝ) / 20)) * 60 - 60 ∧
      FairlightMasterLevelsField.level v =
        (((10 : ℝ) ^ ((40 : ℝ) / 20) + 1) ^ (((v : ℝ) + 10000) / 10000) - 1)
          / ((10 : ℝ) ^ ((40 : ℝ) / 20)) * 60 - 60 := by
  have hsame : ∀ v : ℤ, FairlightMasterLevelsField.level v = FairlightMeterLevelsField.level v :=
    fun v => rfl
  have hC1 : (0 : ℝ) < (10 : ℝ) ^ ((40 : ℝ) / 20) + 1 := by positivity
  have key : ∀ v : ℤ, -10000 ≤ v → v < 0 →
      FairlightMeterLevelsField.level v =
        (((10 : ℝ) ^ ((40 : ℝ) / 20) + 1) ^ (((v : ℝ) + 10000) / 10000) - 1)
          / ((10 : ℝ) ^ ((40 : ℝ) / 20)) * 60 - 60 := by
    intro v h1 h2
    have hv0 : v ≠ 0 := by omega
    rcases eq_or_lt_of_le h1 with hx | hx
    · have hveq : v = -10000 := hx.symm
      subst hveq
      norm_num [FairlightMeterLevelsField.level, FairlightMeterLevelsField.COEFF,
        Real.rpow_zero]
    · have hvr : (-10000 : ℝ) < (v : ℝ) := by exact_mod_cast hx
      have hvpos : (0 : ℝ) < ((v : ℝ) + 10000) / 10000 := by
        apply div_pos <;> linarith
      simp only [FairlightMeterLevelsField.level, FairlightMeterLevelsField.COEFF]
      rw [if_neg hv0, if_neg (ne_of_gt hvpos), Real.rpow_def_of_pos hC1]
  refine ⟨⟨rfl, rfl⟩, ⟨?_, ?_⟩, fun v h1 h2 => ⟨key v h1 h2, (hsame v).trans (key v h1 h2)⟩⟩
  · norm_num [FairlightMeterLevelsField.level]
  · norm_num [FairlightMasterLevelsField.level]

/-- Concrete check of `fairlight_level_curve` at raw value −5000. -/
theorem fairlight_level_curve_check :
    FairlightMeterLevelsField.level (-5000) =
      (((10 : ℝ) ^ ((40 : ℝ) / 20) + 1) ^ ((((-5000 : ℤ) : ℝ) + 10000) / 10000) - 1)
        / ((10 : ℝ) ^ ((40 : ℝ) / 20)) * 60 - 60 :=
  (fairlight_level_curve.2.2 (-5000) (by norm_num) (by norm_num)).1

/-- `TransferDownloadRequestCommand` (`FTSU`): transfer id, store, slot. -/
structure TransferDownloadRequestCommand where
  transfer : ℤ
  store : ℤ
  slot : ℤ
deriving DecidableEq

/-- The `data` bytes of `TransferDownloadRequestCommand.get_command`:
`u1 = 0x03` for the macro store id `0xffff`, else `0x00`, then
`struct.pack('>HHI 4B', transfer, store, slot, u1, 0xd0, 0x9b, 0x8c)`
(the slot is packed as a 32-bit word). -/
def TransferDownloadRequestCommand.pack_data (c : TransferDownloadRequestCommand) :
    Except PyErr Bytes := do
  let u1 : ℤ := if c.store = 0xffff then 0x03 else 0x00
  let bt ← packH c.transfer
  let bs ← packH c.store
  let bsl ← packI c.slot
  let b1 ← packB u1
  let b2 ← packB 0xd0
  let b3 ← packB 0x9b
  let b4 ← packB 0x8c
  pure (bt ++ bs ++ bsl ++ b1 ++ b2 ++ b3 ++ b4)

/-- `TransferDownloadRequestCommand.get_command(self)`: the packed data
wrapped in the `FTSU` envelope. -/
def TransferDownloadRequestCommand.get_command (c : TransferDownloadRequestCommand) :
    Except PyErr Bytes := do
  Command._make_command (asciiBytes "FTSU") (← c.pack_data)

/-- Claim C7: in the `FTSU` payload the flag byte immediately after the
slot field (payload offset 8) is 0x03 exactly when the store id is
0xFFFF and 0x00 otherwise, and every other payload byte is the same
function of the transfer/store/slot arguments in both cases. -/
theorem transfer_download_macro_flag (t st sl : ℤ)
    (ht0 : 0 ≤ t) (ht1 : t ≤ 65535) (hs0 : 0 ≤ st) (hs1 : st ≤ 65535)
    (hl0 : 0 ≤ sl) (hl1 : sl ≤ 4294967295) :
    TransferDownloadRequestCommand.pack_data ⟨t, st, sl⟩ =
      .ok [t.toNat / 256, t.toNat % 256, st.toNat / 256, st.toNat % 256,
           sl.toNat / 16777216, sl.toNat / 65536 % 256, sl.toNat / 256 % 256,
           sl.toNat % 256,
           if st = 0xffff then 0x03 else 0x00, 0xd0, 0x9b, 0x8c] ∧
    ∀ l, TransferDownloadRequestCommand.pack_data ⟨t, st, sl⟩ = .ok l →
      l[8]? = some (if st = 0xffff then 0x03 else 0x00) := by
  have hmain : TransferDownloadRequestCommand.pack_data ⟨t, st, sl⟩ =
      .ok [t.toNat / 256, t.toNat % 256, st.toNat / 256, st.toNat % 256,
           sl.toNat / 16777216, sl.toNat / 65536 % 256, sl.toNat / 256 % 256,
           sl.toNat % 256,
           if st = 0xffff then 0x03 else 0x00, 0xd0, 0x9b, 0x8c] := by
    simp only [TransferDownloadRequestCommand.pack_data]
    split_ifs with hst <;>
      simp [packH, packI, packB, ht0, ht1, hs0, hs1, hl0, hl1] <;> rfl
  refine ⟨hmain, fun l hl => ?_⟩
  rw [hmain] at hl
  cases hl
  by_cases hst : st = 0xffff <;> simp [hst]

/-- Concrete check of `transfer_download_macro_flag` for the macro store
id 0xFFFF and an ordinary store id. -/
theorem transfer_download_macro_flag_check :
    TransferDownloadRequestCommand.pack_data ⟨7, 0xffff, 2⟩ =
      .ok [0, 7, 255, 255, 0, 0, 0, 2, 3, 0xd0, 0x9b, 0x8c] ∧
    TransferDownloadRequestCommand.pack_data ⟨7, 1, 2⟩ =
      .ok [0, 7, 0, 1, 0, 0, 0, 2, 0, 0xd0, 0x9b, 0x8c] := by
  constructor
  · have h := (transfer_download_macro_flag 7 0xffff 2 (by norm_num) (by norm_num)
      (by norm_num) (by norm_num) (by norm_num) (by norm_num)).1
    rw [h]
    norm_num
    decide
  · have h := (transfer_download_macro_flag 7 1 2 (by norm_num) (by norm_num)
      (by norm_num) (by norm_num) (by norm_num) (by norm_num)).1
    rw [h]
    norm_num
    decide

/-- A Python function result that is either the produced byte string or a
returned (not raised) exception object. -/
inductive PyRet where
  | bytes (b : Bytes)
  | excObj (e : PyErr)
deriving DecidableEq

/-- `str.encode()` for arbitrary strings: the UTF-8 bytes. -/
def strEncode (s : String) : Bytes := s.toUTF8.toList.map UInt8.toNat

/-- Python `x or 0` on an optional integer. -/
def pyOrZero (o : Option ℤ) : ℤ :=
  match o with
  | none => 0
  | some v => if v = 0 then 0 else v

/-- `StreamingServiceSetCommand` (`CRSS`): five optional parameters,
stored unchecked by `__init__`. -/
structure StreamingServiceSetCommand where
  name : Option String
  url : Option String
  key : Option String
  bitrate_min : Option ℤ
  bitrate_max : Option ℤ
deriving DecidableEq

/-- `StreamingServiceSetCommand.get_command(self)`: when exactly one
bitrate is given it executes `return ValueError(...)` — the exception
object is returned as the result, nothing is raised; otherwise it packs
`'>B 64s 512s 512s 3x II'` and wraps it in the `CRSS` envelope. -/
def StreamingServiceSetCommand.get_command (c : StreamingServiceSetCommand) :
    Except PyErr PyRet :=
  if c.bitrate_min = none ∧ c.bitrate_max ≠ none then
    .ok (.excObj (.valueError "Both min and max bitrate required"))
  else if c.bitrate_max = none ∧ c.bitrate_min ≠ none then
    .ok (.excObj (.valueError "Both min and max bitrate required"))
  else do
    let mask : Nat :=
      (((0 ||| (if c.name.isSome then 1 <<< 0 else 0))
          ||| (if c.url.isSome then 1 <<< 1 else 0))
          ||| (if c.key.isSome then 1 <<< 2 else 0))
          ||| (if c.bitrate_min.isSome then 1 <<< 3 else 0)
    let nm := match c.name with | some s => strEncode s | none => []
    let u := match c.url with | some s => strEncode s | none => []
    let k := match c.key with | some s => strEncode s | none => []
    let b0 ← packB (mask : ℤ)
    let bmin ← packI (pyOrZero c.bitrate_min)
    let bmax ← packI (pyOrZero c.bitrate_max)
    let frame ← Command._make_command (asciiBytes "CRSS")
      (b0 ++ packNs 64 nm ++ packNs 512 u ++ packNs 512 k ++ packPad 3
        ++ bmin ++ bmax)
    pure (.bytes frame)

set_option maxRecDepth 40000 in
/-- Claim C4 fails on the code (code bug): giving exactly one of
`bitrate_min`/`bitrate_max` raises nothing, at construction or at encode
time — `__init__` stores the arguments unchecked and `get_command`
*returns* the `ValueError` object instead of raising it — while giving
both or neither does produce an encoded frame. -/
theorem streaming_bitrate_check_misreturns :
    StreamingServiceSetCommand.get_command ⟨none, none, none, some 1000, none⟩ =
      .ok (.excObj (.valueError "Both min and max bitrate required")) ∧
    StreamingServiceSetCommand.get_command ⟨none, none, none, none, some 1000⟩ =
      .ok (.excObj (.valueError "Both min and max bitrate required")) ∧
    (∃ b, StreamingServiceSetCommand.get_command ⟨none, none, none, some 1000, some 5000⟩ =
      .ok (.bytes b)) ∧
    (∃ b, StreamingServiceSetCommand.get_command ⟨none, none, none, none, none⟩ =
      .ok (.bytes b)) := by
  refine ⟨rfl, rfl, ⟨_, rfl⟩, ⟨_, rfl⟩⟩

/-- Python values stored in `CameraControlCommand.data` elements. -/
inductive PyVal where
  | vint (n : ℤ)
  | vfloat (q : ℚ)
  | vbool (b : Bool)
  | vstr (s : String)
  | vbytes (b : Bytes)
deriving DecidableEq

/-- Python truthiness of a `data` element, used by `struct.pack` format `?`. -/
def pyTruthy : PyVal → Bool
  | .vint n => n != 0
  | .vfloat q => q != 0
  | .vbool b => b
  | .vstr s => s.length != 0
  | .vbytes b => b.length != 0

/-- The integer value of an argument for an integer `struct.pack` format
(`struct.error` for non-integers such as floats or strings). -/
def pyValInt : PyVal → Except PyErr ℤ
  | .vint n => .ok n
  | .vbool b => .ok (if b then 1 else 0)
  | _ => .error .structError

/-- `int(v * (2 ** 11))` applied to a `data` element on the
`datatype == 128` path of `CameraControlCommand.get_command`.  For a
string or bytes element Python would repeat the sequence 2048 times and
then usually fail parsing it as an integer; that degenerate corner is
modelled as the corresponding error. -/
def pyIntTimes2048 : PyVal → Except PyErr PyVal
  | .vint n => .ok (.vint (n * 2 ^ 11))
  | .vfloat q => .ok (.vint (pyInt (q * 2 ^ 11)))
  | .vbool b => .ok (.vint ((if b then 1 else 0) * 2 ^ 11))
  | .vstr _ => .error (.valueError "invalid literal for int")
  | .vbytes _ => .error (.valueError "invalid literal for int")

/-- `len(...)` of a `data` element (`TypeError` for numbers). -/
def pyLen : PyVal → Except PyErr Nat
  | .vstr s => .ok s.length
  | .vbytes b => .ok b.length
  | _ => .error .typeError

/-- `v.encode()` on a `data` element, the `datatype == 5` mutation
(`AttributeError` for non-strings). -/
def pyEncode : PyVal → Except PyErr PyVal
  | .vstr s => .ok (.vbytes (strEncode s))
  | _ => .error .attributeError

/-- The `countoffset` dict lookup in `CameraControlCommand.get_command`
(`KeyError` outside its domain). -/
def countoffset : ℤ → Except PyErr Nat
  | 0 => .ok 2
  | 1 => .ok 2
  | 2 => .ok 2
  | 3 => .ok 4
  | 4 => .ok 2
  | 5 => .ok 2
  | 128 => .ok 4
  | _ => .error .keyError

/-- `struct.pack('>{count}' + fmtmap[datatype], *data)` for the numeric
datatypes (`?`/`b`/`h`/`i`/`q`/`h`); the `datatype == 5` string case is
handled inside `get_command`. -/
def packCCElements : ℤ → List PyVal → Except PyErr Bytes
  | 0, ds => .ok (ds.map (fun v => if pyTruthy v then 1 else 0))
  | 1, ds => do pure (← (← ds.mapM pyValInt).mapM (packSigned 1)).flatten
  | 2, ds => do pure (← (← ds.mapM pyValInt).mapM (packSigned 2)).flatten
  | 3, ds => do pure (← (← ds.mapM pyValInt).mapM (packSigned 4)).flatten
  | 4, ds => do pure (← (← ds.mapM pyValInt).mapM (packSigned 8)).flatten
  | 128, ds => do pure (← (← ds.mapM pyValInt).mapM (packSigned 2)).flatten
  | _, _ => .error .keyError

/-- `CameraControlCommand` (`CCmd`): the attributes stored by `__init__`
(`datatype` already defaulted to 0 for `None`, `relative` to `False`). -/
structure CameraControlCommand where
  destination : ℤ
  category : ℤ
  parameter : ℤ
  relative : Bool
  datatype : ℤ
  data : Option (List PyVal)
deriving DecidableEq

/-- `CameraControlCommand.get_command(self)`.  The result pairs the frame
with the state of the object after the call, because the
`datatype == 128` path executes `self.data[i] = int(self.data[i] * (2 ** 11))`
and the `datatype == 5` path `self.data[i] = self.data[i].encode()`,
mutating the object; when an error is raised no frame is produced. -/
def CameraControlCommand.get_command (c : CameraControlCommand) :
    Except PyErr (Bytes × CameraControlCommand) := do
  let count : Nat := match c.data with | some ds => ds.length | none => 0
  let b0 ← packB c.destination
  let b1 ← packB c.category
  let b2 ← packB c.parameter
  let b3 ← packB (if c.relative then 1 else 0)
  let b4 ← packB c.datatype
  let co ← countoffset c.datatype
  let elements := (List.replicate 11 (0 : Nat)).set co count
  let ebytes ← elements.mapM (fun e => packB (e : ℤ))
  let data1 := b0 ++ b1 ++ b2 ++ b3 ++ b4 ++ ebytes.flatten
  match c.data with
  | none =>
      let frame ← Command._make_command (asciiBytes "CCmd") data1
      pure (frame, c)
  | some ds =>
      if c.datatype = 5 then do
        let v0 ← match ds with
          | [] => .error .indexError
          | v :: _ => .ok v
        let n ← pyLen v0
        let ds2 ← ds.mapM pyEncode
        let packed ← match ds2 with
          | [.vbytes b] => .ok (packNs n b)
          | _ => .error .structError
        let frame ← Command._make_command (asciiBytes "CCmd")
          (data1 ++ packed ++ packPad (8 - packed.length))
        pure (frame, { c with data := some ds2 })
      else do
        let ds2 ← if c.datatype = 128 then ds.mapM pyIntTimes2048 else .ok ds
        let packed ← packCCElements c.datatype ds2
        let frame ← Command._make_command (asciiBytes "CCmd")
          (data1 ++ packed ++ packPad (8 - packed.length))
        pure (frame, { c with data := some ds2 })

/-- Claim C8 fails on the code (code bug): for fixed16 `datatype` 128,
`get_command` mutates `self.data` in place (each element is overwritten
with its 2^11-scaled wire integer), so encoding is not a pure function of
the constructed object.  At destination 1, category 0, parameter 0,
datatype 128, `data = [1]`, the first call returns a frame with the data
element 2048 and leaves `data = [2048]`; the second call on the same
object re-scales to 4194304, which no longer fits a 16-bit word, and
raises `struct.error` instead of returning the same frame. -/
theorem camera_control_get_command_mutates :
    CameraControlCommand.get_command ⟨1, 0, 0, false, 128, some [.vint 1]⟩ =
      .ok ([0, 32, 0, 0, 67, 67, 109, 100, 1, 0, 0, 0, 128, 0, 0, 0, 0, 1, 0,
            0, 0, 0, 0, 0, 8, 0, 0, 0, 0, 0, 0, 0],
           ⟨1, 0, 0, false, 128, some [.vint 2048]⟩) ∧
    (some [PyVal.vint 2048] ≠ some [PyVal.vint 1]) ∧
    CameraControlCommand.get_command ⟨1, 0, 0, false, 128, some [.vint 2048]⟩ =
      .error .structError := by
  exact ⟨rfl, by decide, rfl⟩

/-- `bytes.split(b'\x00')` as used by `FieldBase._get_string`: the list
of chunks between zero bytes (always at least one chunk). -/
def pySplitZero : Bytes → List Bytes
  | [] => [[]]
  | b :: rest =>
      if b = 0 then [] :: pySplitZero rest
      else
        match pySplitZero rest with
        | [] => [[b]]
        | chunk :: chunks => (b :: chunk) :: chunks

/-- UTF-8 decode of a byte string; `none` models a raised
`UnicodeDecodeError`. -/
def utf8Decode (b : Bytes) : Option String :=
  String.fromUTF8? (ByteArray.mk (b.map (fun n => UInt8.ofNat n)).toArray)

/-- `FieldBase._get_string(self, raw)`:
`raw.split(b'\x00')[0].decode()`.  The `[0]` indexing never fails because
`split` always returns at least one chunk (`pySplitZero_ne_nil`). -/
def FieldBase._get_string (raw : Bytes) : Option String :=
  utf8Decode ((pySplitZero raw).headD [])

/-- `bytes.split` always returns at least one chunk. -/
theorem pySplitZero_ne_nil (raw : Bytes) : pySplitZero raw ≠ [] := by
  match raw with
  | [] => simp [pySplitZero]
  | b :: rest =>
      rw [pySplitZero]
      split_ifs
      · simp
      · cases h : pySplitZero rest <;> simp [h]

/-- The first chunk of `bytes.split(b'\x00')` is the longest zero-free
starting segment of the input. -/
theorem pySplitZero_head (raw : Bytes) :
    (pySplitZero raw).headD [] = raw.takeWhile (fun b => b != 0) := by
  induction raw with
  | nil => rfl
  | cons b rest ih =>
      by_cases hb : b = 0
      · subst hb
        simp [pySplitZero, List.takeWhile]
      · have hbne : (b != 0) = true := by simpa using hb
        cases h : pySplitZero rest with
        | nil => exact absurd h (pySplitZero_ne_nil rest)
        | cons chunk chunks =>
            rw [h] at ih
            simp only [List.headD] at ih
            simp [pySplitZero, hb, h, ih, List.takeWhile_cons_of_pos hbne]

/-- Claim C10: the string decoded by `FieldBase._get_string` is the
decoding of exactly the bytes strictly before the first zero byte of the
region, and of the whole region when it contains no zero byte; padding
and bytes after the first NUL never reach the decoder. -/
theorem get_string_stops_at_nul (raw : Bytes) :
    FieldBase._get_string raw = utf8Decode (raw.takeWhile (fun b => b != 0)) ∧
    ((∀ b ∈ raw, b ≠ 0) → raw.takeWhile (fun b => b != 0) = raw) := by
  constructor
  · rw [FieldBase._get_string, pySplitZero_head]
  · intro h
    induction raw with
    | nil => rfl
    | cons b rest ih =>
        have hb : b ≠ 0 := h b (by simp)
        have hbne : (b != 0) = true := by simpa using hb
        rw [@List.takeWhile_cons_of_pos _ (fun x => x != 0) b rest hbne]
        exact congrArg (b :: ·) (ih (fun x hx => h x (by simp [hx])))

/-- Concrete check of `get_string_stops_at_nul`: a NUL-free region decodes
whole, a NUL-terminated region decodes only its first part. -/
theorem get_string_stops_at_nul_check :
    FieldBase._get_string [104, 105] = utf8Decode [104, 105] ∧
    FieldBase._get_string [104, 0, 120] = utf8Decode [104] := by
  constructor
  · have h := get_string_stops_at_nul [104, 105]
    rw [h.1, h.2 (by decide)]
  · have h := get_string_stops_at_nul [104, 0, 120]
    rw [h.1]
    rfl
